import Mathlib

/-!
Verification of the timing core of a periodic-task scheduler
(`src/executor.rs`): the pure delay-calculation function used by the
fixed-rate scheduling loop, the wait computation of the fixed-interval
loop, and the error-handling shape of the `Executor` lifecycle functions.

Rust `Duration` values are non-negative; we model them as `Nat`
nanosecond counts. Rust's `Duration` subtraction panics on underflow,
so truncated `Nat` subtraction agrees with the source exactly when no
subtraction in the source underflows; `calculate_delay_checked` below
mirrors the source with an explicit underflow-detecting subtraction and
is proved to never fail, and `calculate_delayZ` mirrors it over `Int`
to express non-negativity of the outputs.
-/

namespace ScheduledExecutor

/-- Embedding of `calculate_delay` (src/executor.rs lines 33-48):
given the nominal interval, the last execution time and the accumulated
delay (debt), return the next wait and the updated debt. Durations are
`Nat` nanosecond counts. -/
def calculate_delay (interval execution delay : Nat) : Nat × Nat :=
  if execution ≥ interval then
    (0, delay + execution - interval)
  else
    let wait_gap := interval - execution
    if delay = 0 then
      (wait_gap, 0)
    else
      if delay < wait_gap then
        (wait_gap - delay, 0)
      else
        (0, delay - wait_gap)

/-- The wait computation of `fixed_interval_loop`
(src/executor.rs lines 18-22): zero on overrun, otherwise the remaining
gap. -/
def fixed_interval_wait (interval execution : Nat) : Nat :=
  if execution ≥ interval then 0 else interval - execution

/-- Subtraction that reports underflow, standing in for Rust `Duration`
subtraction (which panics when the result would be negative). -/
def checkedSub (a b : Nat) : Option Nat :=
  if b ≤ a then some (a - b) else none

/-- `calculate_delay` with every duration subtraction of the source
replaced by the underflow-detecting `checkedSub`; `none` would mean the
Rust source panics on that input. -/
def calculate_delay_checked (interval execution delay : Nat) :
    Option (Nat × Nat) :=
  if execution ≥ interval then
    (checkedSub (delay + execution) interval).map (fun d => (0, d))
  else
    (checkedSub interval execution).bind fun wait_gap =>
      if delay = 0 then
        some (wait_gap, 0)
      else
        if delay < wait_gap then
          (checkedSub wait_gap delay).map (fun w => (w, 0))
        else
          (checkedSub delay wait_gap).map (fun d => (0, d))

/-- `calculate_delay` transcribed over `Int`, where subtraction can go
negative, so that non-negativity of the outputs is a statement rather
than a property of the carrier type. -/
def calculate_delayZ (interval execution delay : Int) : Int × Int :=
  if execution ≥ interval then
    (0, delay + execution - interval)
  else
    let wait_gap := interval - execution
    if delay = 0 then
      (wait_gap, 0)
    else
      if delay < wait_gap then
        (wait_gap - delay, 0)
      else
        (0, delay - wait_gap)

/-- The fields of `Executor` that its lifecycle functions observe:
the background thread's name and whether the termination receiver has
already been dropped (the background thread already exited). -/
structure Executor where
  threadName : String
  receiverDropped : Bool
deriving DecidableEq, Repr

/-- Sending on the one-shot termination channel
(`self.termination_sender.send(())`): it errs exactly when the receiver
has been dropped. -/
def sendTermination (receiverDropped : Bool) : Except Unit Unit :=
  if receiverDropped then Except.error () else Except.ok ()

/-- Joining the background thread (`self.thread_handle.join()`): it
errs exactly when the thread panicked. -/
def joinThread (threadPanicked : Bool) : Except Unit Unit :=
  if threadPanicked then Except.error () else Except.ok ()

/-- Embedding of `Executor::stop_async` (src/executor.rs lines 101-103):
`let _ = self.termination_sender.send(());` — the send result is bound
and discarded, so the function returns normally whatever it was. -/
def stop_async (e : Executor) : Except Unit Unit :=
  match sendTermination e.receiverDropped with
  | _ => Except.ok ()

/-- Embedding of `Executor::stop_sync` (src/executor.rs lines 105-108):
discards the send result, then discards the join result. -/
def stop_sync (e : Executor) (threadPanicked : Bool) : Except Unit Unit :=
  match sendTermination e.receiverDropped with
  | _ =>
    match joinThread threadPanicked with
    | _ => Except.ok ()

/-- Embedding of `Executor::with_name` (src/executor.rs lines 78-99):
spawn a background thread with the given name (propagating thread-spawn
failure with `?` as an I/O error), then return an `Executor` whose
receiver is live. `spawnOk` records whether `thread::Builder::spawn`
succeeded. -/
def with_name (spawnOk : Bool) (thread_name : String) : Except Unit Executor :=
  if spawnOk then
    Except.ok { threadName := thread_name, receiverDropped := false }
  else
    Except.error ()

/-- Embedding of `Executor::new` (src/executor.rs lines 74-76):
`Executor::with_name("executor")`. -/
def new (spawnOk : Bool) : Except Unit Executor :=
  with_name spawnOk "executor"

/-- `checkedSub` succeeds exactly on non-underflowing inputs. -/
theorem checkedSub_of_le {a b : Nat} (h : b ≤ a) : checkedSub a b = some (a - b) := by
  simp [checkedSub, h]

end ScheduledExecutor

namespace ScheduledExecutor

/-- Claim C1: for every non-negative interval, execution and debt, if
`execution >= interval` then `calculate_delay` returns `next_wait = 0`
and `updated_debt = debt + (execution - interval)`. -/
theorem calculate_delay_overrun (interval execution delay : Nat)
    (h : execution ≥ interval) :
    calculate_delay interval execution delay = (0, delay + (execution - interval)) := by
  simp only [calculate_delay, if_pos h, Prod.mk.injEq, true_and]
  omega

/-- Witness for C1 at `(interval, execution, delay) = (10, 11, 0)`. -/
theorem calculate_delay_overrun_witness :
    calculate_delay 10 11 0 = (0, 0 + (11 - 10)) :=
  calculate_delay_overrun 10 11 0 (by decide)

/-- Claim C2: for `execution < interval` with `gap = interval - execution`,
`calculate_delay` returns `(gap, 0)` when `debt = 0`, `(gap - debt, 0)`
when `0 < debt < gap`, and `(0, debt - gap)` when `debt ≥ gap`. -/
theorem calculate_delay_underrun (interval execution delay : Nat)
    (h : execution < interval) :
    (delay = 0 → calculate_delay interval execution delay = (interval - execution, 0)) ∧
    (0 < delay → delay < interval - execution →
      calculate_delay interval execution delay = (interval - execution - delay, 0)) ∧
    (interval - execution ≤ delay →
      calculate_delay interval execution delay = (0, delay - (interval - execution))) := by
  refine ⟨fun h0 => ?_, fun hpos hlt => ?_, fun hge => ?_⟩ <;>
    simp only [calculate_delay] <;> split_ifs <;>
      simp only [Prod.mk.injEq, true_and, and_true] <;> omega

/-- Witness for C2 at `(10, 3, 3)`: `0 < 3 < 7`, so the result is `(4, 0)`. -/
theorem calculate_delay_underrun_witness :
    calculate_delay 10 3 3 = (10 - 3 - 3, 0) :=
  (calculate_delay_underrun 10 3 3 (by decide)).2.1 (by decide) (by decide)

/-- Claim C3: the fixed-interval loop's wait `max(0, interval - execution)`
equals the `next_wait` component of `calculate_delay interval execution 0`:
the fixed-interval variant is the debt-zero degenerate case of the delay
calculator. -/
theorem fixed_interval_wait_eq_calculate_delay (interval execution : Nat) :
    fixed_interval_wait interval execution = (calculate_delay interval execution 0).1 ∧
    (fixed_interval_wait interval execution : Int) =
      max 0 ((interval : Int) - (execution : Int)) := by
  constructor
  · simp only [fixed_interval_wait, calculate_delay]
    split_ifs <;> rfl
  · simp only [fixed_interval_wait]
    split_ifs with h
    · rw [max_eq_left (by omega)]
      simp
    · rw [max_eq_right (by omega)]
      omega

/-- Claim C4: exact debt accounting — for all non-negative inputs,
`updated_debt + interval = debt + execution + next_wait`: on overrun the
debt grows by exactly `execution - interval`, and otherwise it shrinks
by exactly the slack consumed. -/
theorem calculate_delay_conservation (interval execution delay : Nat) :
    (calculate_delay interval execution delay).2 + interval =
      delay + execution + (calculate_delay interval execution delay).1 := by
  simp only [calculate_delay]
  split_ifs <;> omega

/-- Claim C5: `calculate_delay` is total over all non-negative duration
inputs — no duration subtraction underflows (`calculate_delay_checked`
never returns `none`) — and over `Int` both outputs, in particular
`updated_debt`, are non-negative. -/
theorem calculate_delay_total (interval execution delay : Nat) :
    calculate_delay_checked interval execution delay =
      some (calculate_delay interval execution delay) ∧
    0 ≤ (calculate_delayZ interval execution delay).1 ∧
    0 ≤ (calculate_delayZ interval execution delay).2 := by
  refine ⟨?_, ?_, ?_⟩
  · rcases Nat.lt_or_ge execution interval with h1 | h1
    · simp only [calculate_delay_checked, calculate_delay, if_neg (Nat.not_le.mpr h1),
        checkedSub_of_le (Nat.le_of_lt h1), Option.some_bind]
      rcases Nat.eq_zero_or_pos delay with h2 | h2
      · simp only [if_pos h2]
      · simp only [if_neg (show ¬delay = 0 by omega)]
        rcases Nat.lt_or_ge delay (interval - execution) with h3 | h3
        · simp only [if_pos h3, checkedSub_of_le (Nat.le_of_lt h3)]
          rfl
        · simp only [if_neg (show ¬delay < interval - execution by omega),
            checkedSub_of_le h3]
          rfl
    · simp only [calculate_delay_checked, calculate_delay, if_pos h1,
        checkedSub_of_le (show interval ≤ delay + execution by omega)]
      rfl
  · simp only [calculate_delayZ]
    split_ifs <;> omega
  · simp only [calculate_delayZ]
    split_ifs <;> omega

/-- Claim C6: the five concrete cases of `calculate_delay_test`
(src/executor.rs lines 176-183), durations in seconds. -/
theorem calculate_delay_concrete_cases :
    calculate_delay 10 3 0 = (7, 0) ∧
    calculate_delay 10 11 0 = (0, 1) ∧
    calculate_delay 10 3 3 = (4, 0) ∧
    calculate_delay 10 3 9 = (0, 2) ∧
    calculate_delay 10 12 15 = (0, 17) := by
  decide

/-- Claim C9: at most one component of the result of `calculate_delay`
is nonzero — whenever `next_wait > 0`, the updated debt is `0`. -/
theorem calculate_delay_wait_implies_no_debt (interval execution delay : Nat)
    (h : 0 < (calculate_delay interval execution delay).1) :
    (calculate_delay interval execution delay).2 = 0 := by
  revert h
  simp only [calculate_delay]
  split_ifs <;> simp

/-- Witness for C9 at `(10, 3, 0)`: the wait is `7 > 0` and the debt `0`. -/
theorem calculate_delay_wait_implies_no_debt_witness :
    (calculate_delay 10 3 0).2 = 0 :=
  calculate_delay_wait_implies_no_debt 10 3 0 (by decide)

/-- Claim C8: sending the termination signal when the receiver is
already dropped is silently ignored — `stop_async` and `stop_sync` on an
already-stopped `Executor` return `ok`, never an error, regardless of
the thread name or whether the joined thread panicked. -/
theorem stop_on_stopped_executor_is_ok (name : String) (threadPanicked : Bool) :
    stop_async { threadName := name, receiverDropped := true } = Except.ok () ∧
    stop_sync { threadName := name, receiverDropped := true } threadPanicked =
      Except.ok () := by
  constructor <;> rfl

/-- Claim C10: `new` is exactly `with_name "executor"`: the results
agree for every thread-spawn outcome, and on success the executor
carries the fixed thread name `"executor"`. -/
theorem new_eq_with_name_executor (spawnOk : Bool) :
    new spawnOk = with_name spawnOk "executor" ∧
    (∀ e : Executor, new spawnOk = Except.ok e → e.threadName = "executor") := by
  refine ⟨rfl, fun e he => ?_⟩
  cases spawnOk
  · simp [new, with_name] at he
  · have he2 : Except.ok ({ threadName := "executor", receiverDropped := false } :
        Executor) = Except.ok e := he
    injection he2 with h
    rw [← h]

/-- Witness for C10 at a successful spawn: `new` yields the executor
named `"executor"`. -/
theorem new_eq_with_name_executor_witness :
    new true = with_name true "executor" ∧
    Executor.threadName { threadName := "executor", receiverDropped := false } =
      "executor" :=
  ⟨(new_eq_with_name_executor true).1,
    (new_eq_with_name_executor true).2
      { threadName := "executor", receiverDropped := false } rfl⟩

end ScheduledExecutor
